import Mathlib

/-!
Shallow embedding of `src/handler.py` (TigerZen/worker-a1111), a RunPod
serverless handler that forwards job payloads to a local AUTOMATIC1111
Stable Diffusion HTTP API.

JSON values are modelled by `JVal`; Python dicts by association lists with
unique-key-preserving operations mirroring `pop`, `get`, `setdefault` and
item assignment.  Numbers (Python int/float) are modelled by `ℚ`; the
textual rendering of a number inside an f-string is abstracted by
`renderNum` (the claims under study depend on the shape of the rendered
tag, not on Python's exact float formatting).  Exceptions that escape a
Python block are modelled by the `PyResult.exn` constructor.
-/

namespace WorkerA1111

/-- JSON-ish values as manipulated by the handler script. -/
inductive JVal : Type where
  | null : JVal
  | bool (b : Bool) : JVal
  | num (q : ℚ) : JVal
  | str (s : String) : JVal
  | arr (xs : List JVal) : JVal
  | obj (fields : List (String × JVal)) : JVal

/-- A Python dict with string keys, as an association list (first match wins;
all operations below preserve key uniqueness when the input has it). -/
abbrev Payload := List (String × JVal)

/-- `d[k]` lookup / `d.get(k)`: first binding of `k`, if any. -/
def lookup (d : Payload) (k : String) : Option JVal :=
  match d with
  | [] => none
  | (k', v) :: rest => if k' = k then some v else lookup rest k

/-- Key removal, as performed by `d.pop(k, default)` on a dict. -/
def eraseKey (d : Payload) (k : String) : Payload :=
  d.filter (fun p => p.1 ≠ k)

/-- Item assignment `d[k] = v`: overwrite the binding in place when the key
is present (keeping its position, as a Python dict does), else append. -/
def setKey : Payload → String → JVal → Payload
  | [], k, v => [(k, v)]
  | (k₀, v₀) :: rest, k, v =>
      if k₀ = k then (k, v) :: rest else (k₀, v₀) :: setKey rest k v

/-- `d.setdefault(k, v)`: insert `v` only when `k` is absent. -/
def setdefault (d : Payload) (k : String) (v : JVal) : Payload :=
  if (lookup d k).isSome then d else d ++ [(k, v)]

/-- Python truthiness of a JSON value (`bool(v)`). -/
def truthy : JVal → Bool
  | .null => false
  | .bool b => b
  | .num q => q ≠ 0
  | .str s => s ≠ ""
  | .arr xs => !xs.isEmpty
  | .obj fs => !fs.isEmpty

/-- Rendering of a number inside an f-string.  Abstraction of Python's
`str()` on int/float: the claims only depend on the tag's shape. -/
def renderNum (q : ℚ) : String :=
  if q.den = 1 then toString q.num
  else toString q.num ++ "/" ++ toString q.den

/-- `str(v)` as used when formatting the LoRA tag.  Containers are rendered
by an abstraction; in practice names and weights are strings and numbers. -/
def pyStr : JVal → String
  | .null => "None"
  | .bool b => if b then "True" else "False"
  | .num q => renderNum q
  | .str s => s
  | .arr _ => "[...]"
  | .obj _ => "\x7b...\x7d"

/-- `isinstance(w, (int, float))`.  Python `bool` is a subclass of `int`,
so booleans pass the check. -/
def isNumeric : JVal → Bool
  | .num _ => true
  | .bool _ => true
  | _ => false

/-- A Python computation that either returns normally or lets an exception
escape (named by its Python class). -/
inductive PyResult (α : Type) : Type where
  | ok (a : α) : PyResult α
  | exn (e : String) : PyResult α
deriving DecidableEq

namespace PyResult

def map {α β : Type} (f : α → β) : PyResult α → PyResult β
  | .ok a => .ok (f a)
  | .exn e => .exn e

def isOk {α : Type} : PyResult α → Bool
  | .ok _ => true
  | .exn _ => false

end PyResult

/-- The tag one LoRA descriptor (a dict) contributes: `" <lora:name:weight>"`
when the entry has a truthy name and a numeric weight, `""` otherwise
(the code then merely logs a warning). -/
def loraTag (fields : List (String × JVal)) : String :=
  let loraName := lookup fields "name"
  let loraWeight := lookup fields "weight"
  match loraName, loraWeight with
  | some n, some w =>
      if truthy n && isNumeric w then
        " <lora:" ++ pyStr n ++ ":" ++ pyStr w ++ ">"
      else ""
  | _, _ => ""

/-- The `for lora_entry in loras_to_apply` loop accumulating
`lora_prompt_segment`.  A non-dict entry raises `AttributeError`
(`lora_entry.get` does not exist), which escapes the handler. -/
def loraLoop : List JVal → String → PyResult String
  | [], acc => .ok acc
  | .obj fs :: rest, acc => loraLoop rest (acc ++ loraTag fs)
  | _ :: _, _ => .exn "AttributeError"

/-- The `defaults` dict of the handler, in source order. -/
def defaults : Payload :=
  [ ("steps", .num 20)
  , ("sampler_name", .str "Euler a")
  , ("cfg_scale", .num 7)
  , ("width", .num 512)
  , ("height", .num 512)
  , ("seed", .num (-1))
  , ("negative_prompt", .str "") ]

/-- `for key, value in defaults.items(): job_input.setdefault(key, value)`. -/
def applyDefaults (d : Payload) : Payload :=
  defaults.foldl (fun acc kv => setdefault acc kv.1 kv.2) d

/-- The payload transformation performed by `handler` before the inference
call, translated line by line:
`loras_to_apply = job_input.pop("loras", [])`;
`current_prompt = job_input.get("prompt", "")`;
the LoRA-injection block guarded by `if loras_to_apply:`;
then the `setdefault` loop over `defaults`.
A truthy non-list `loras` value, or a non-dict entry, raises; so does
concatenating a non-string prompt with a nonempty tag segment. -/
def handlerTransform (p : Payload) : PyResult Payload :=
  let lorasToApply := (lookup p "loras").getD (.arr [])
  let p1 := eraseKey p "loras"
  let currentPrompt := (lookup p1 "prompt").getD (.str "")
  if truthy lorasToApply then
    match lorasToApply with
    | .arr entries =>
        match loraLoop entries "" with
        | .ok seg =>
            if seg ≠ "" then
              match currentPrompt with
              | .str s =>
                  .ok (applyDefaults (setKey p1 "prompt" (.str (s ++ seg))))
              | _ => .exn "TypeError"
            else .ok (applyDefaults p1)
        | .exn e => .exn e
    | _ => .exn "TypeError"
  else .ok (applyDefaults p1)

/-- The two inference endpoints of the local API. -/
inductive Endpoint : Type where
  | txt2img : Endpoint
  | img2img : Endpoint
deriving DecidableEq, Repr

/-- Endpoint selection in `run_sd_inference`:
`api_endpoint = "txt2img"`, switched to `"img2img"` by
`if "init_images" in inference_payload and inference_payload["init_images"]:`. -/
def chooseEndpoint (p : Payload) : Endpoint :=
  match lookup p "init_images" with
  | some v => if truthy v then .img2img else .txt2img
  | none => .txt2img

/-- Outcome of one POST to an inference endpoint, as observed through
`response.raise_for_status()` / `response.json()`:
`ok body` is a successful response whose JSON body parses;
`httpError errStr resp` is `requests.exceptions.HTTPError` (with
`str(err)` and, when a response object is attached, its status code and
text); `requestError` is any other `requests.exceptions.RequestException`;
`otherError` is any other exception (e.g. a JSON decode failure). -/
inductive ApiResult : Type where
  | ok (body : JVal) : ApiResult
  | httpError (errStr : String) (resp : Option (Nat × String)) : ApiResult
  | requestError (errStr : String) : ApiResult
  | otherError (errStr : String) : ApiResult

/-- Whether an inference call came back successfully. -/
def ApiResult.isOk : ApiResult → Bool
  | .ok _ => true
  | _ => false

/-- `run_sd_inference`: one POST to the endpoint chosen from the payload.
The network behaviour is a parameter `api`. -/
def run_sd_inference (api : Endpoint → Payload → ApiResult) (p : Payload) :
    ApiResult :=
  api (chooseEndpoint p) p

/-- What a handler invocation produces: the raw JSON body on success, a
structured `{"error": ..., "status_code": ...}` dict on a caught failure,
or a Python exception escaping the handler (possible only from the
payload-transformation code, which sits outside the `try`). -/
inductive JobResult : Type where
  | success (body : JVal) : JobResult
  | error (message : String) (statusCode : Nat) : JobResult
  | raised (e : String) : JobResult

/-- The `try/except` cascade around `run_sd_inference` in `handler`,
building the error message and status code exactly as the code does. -/
def mapApiResult : ApiResult → JobResult
  | .ok body => .success body
  | .httpError errStr (some (code, text)) =>
      .error ("AUTOMATIC1111 API HTTP Error: " ++ errStr ++ " - Status: " ++
        toString code ++ " - Response: " ++ text) code
  | .httpError errStr none =>
      .error ("AUTOMATIC1111 API HTTP Error: " ++ errStr) 500
  | .requestError errStr =>
      .error ("AUTOMATIC1111 API Request Error: " ++ errStr) 503
  | .otherError errStr =>
      .error ("An unexpected error occurred in the handler: " ++ errStr) 500

/-- `handler(event)`, instrumented with the list of inference calls it
issues (endpoint and forwarded payload).  `job_input = event["input"]`
raises `KeyError`/`TypeError` when the event is not a dict with an
`"input"` key, and the transformation raises `AttributeError` when
`job_input` is not a dict; such exceptions escape the handler. -/
def handlerRun (api : Endpoint → Payload → ApiResult) (event : JVal) :
    JobResult × List (Endpoint × Payload) :=
  match event with
  | .obj fs =>
      match lookup fs "input" with
      | some (.obj jobInput) =>
          match handlerTransform jobInput with
          | .ok p => (mapApiResult (run_sd_inference api p), [(chooseEndpoint p, p)])
          | .exn e => (.raised e, [])
      | some _ => (.raised "AttributeError", [])
      | none => (.raised "KeyError", [])
  | _ => (.raised "TypeError", [])

/-- The value `handler` returns (first component of the instrumented run). -/
def handler (api : Endpoint → Payload → ApiResult) (event : JVal) : JobResult :=
  (handlerRun api event).1

/-- The HTTP client's built-in retry policy:
`Retry(total=15, backoff_factor=0.3, status_forcelist=[500, 502, 503, 504])`.
The backoff factor 0.3 is kept as a rational. -/
structure RetryConfig : Type where
  total : Nat
  backoffFactor : ℚ
  statusForcelist : List Nat

def retries_config : RetryConfig :=
  { total := 15, backoffFactor := 3 / 10, statusForcelist := [500, 502, 503, 504] }

/-! ### Readiness polling (`wait_for_service`) -/

/-- Observable actions of the `wait_for_service` loop: a health check
(numbered by which poll it is), a periodic retry log line (numbered by
`retries_count`), and a `time.sleep` of a fixed duration in seconds. -/
inductive WaitAction : Type where
  | check (i : Nat) : WaitAction
  | log (attempt : Nat) : WaitAction
  | sleep (seconds : ℚ) : WaitAction
deriving DecidableEq, Repr

/-- `log_interval = 15` in `wait_for_service`. -/
def log_interval : Nat := 15

/-- `check_interval_seconds = 0.5` in `wait_for_service`. -/
def check_interval_seconds : ℚ := 1 / 2

/-- The `while True` loop of `wait_for_service`.  `outcome i` tells whether
the `i`-th health check succeeds (`raise_for_status` does not raise; any
`RequestException` or other exception is a failure and both `except` arms
behave identically for our purposes).  `fuel` bounds how many iterations we
observe: the loop itself never gives up, so running out of fuel yields
`none` (still polling), while `some i` means the loop returned after check
`i` succeeded.  The second component is the trace of actions performed. -/
def waitLoop (outcome : Nat → Bool) :
    Nat → Nat → Nat → Option Nat × List WaitAction
  | 0, _, _ => (none, [])
  | fuel + 1, retriesCount, i =>
      if outcome i then (some i, [.check i])
      else
        let rc := retriesCount + 1
        let logs : List WaitAction :=
          if rc = 1 ∨ rc % log_interval = 0 then [.log rc] else []
        let rest := waitLoop outcome fuel rc (i + 1)
        (rest.1, .check i :: logs ++ .sleep check_interval_seconds :: rest.2)

/-- `wait_for_service` observed for `fuel` iterations: starts with
`retries_count = 0` at the first check. -/
def wait_for_service (outcome : Nat → Bool) (fuel : Nat) :
    Option Nat × List WaitAction :=
  waitLoop outcome fuel 0 0

/-! ### Model-checkpoint switching (`set_sd_model_checkpoint`) -/

/-- Python's `needle in hay` on strings, via character lists. -/
def listContains (needle hay : List Char) : Bool :=
  match hay with
  | [] => needle.isEmpty
  | _ :: t => needle.isPrefixOf hay || listContains needle t

def strContains (hay needle : String) : Bool :=
  listContains needle.toList hay.toList

/-- What `set_sd_model_checkpoint` reports (all outcomes are only logged). -/
inductive CkptOutcome : Type where
  | verified : CkptOutcome
  | warned : CkptOutcome
  | httpErrorLogged : CkptOutcome
  | requestErrorLogged : CkptOutcome
  | unexpectedErrorLogged : CkptOutcome
deriving DecidableEq, Repr

/-- The `payload = \x7b"sd_model_checkpoint": model_title_or_filename\x7d`
dict POSTed to the `/options` configuration endpoint. -/
def ckptPayload (name : String) : Payload :=
  [("sd_model_checkpoint", .str name)]

/-- Python's `name in xs` on a list: membership, i.e. `name == x` for some
element; a string compares equal only to an equal string. -/
def pyListContains (xs : List JVal) (name : String) : Bool :=
  xs.any (fun x => match x with | .str s => s = name | _ => false)

/-- Python's `name in d` on a dict: membership among the keys. -/
def pyKeysContain (fs : List (String × JVal)) (name : String) : Bool :=
  fs.any (fun kv => kv.1 = name)

/-- Python's `name in v` as used at the verification step
(`model_title_or_filename in new_checkpoint`): substring test on a
string, element membership on a list, key membership on a dict; on a
non-container (number, boolean, None) it raises `TypeError`. -/
def pyContains (v : JVal) (name : String) : PyResult Bool :=
  match v with
  | .str s => .ok (strContains s name)
  | .arr xs => .ok (pyListContains xs name)
  | .obj fs => .ok (pyKeysContain fs name)
  | .num _ => .exn "TypeError"
  | .bool _ => .exn "TypeError"
  | .null => .exn "TypeError"

/-- The body of the `try` block of `set_sd_model_checkpoint`: POST the new
checkpoint to `/options`, then GET `/options` back and compare.
`postApi` is the outcome of POSTing a given payload (after
`raise_for_status`), `getOpts` that of the GET plus `.json()`.  A non-dict
options body makes `.get('sd_model_checkpoint')` raise `AttributeError`;
`name in new_checkpoint` follows Python containment semantics
(`pyContains`).  Exceptions are tagged by their Python class. -/
def ckptTryBody (name : String) (postApi : Payload → ApiResult)
    (getOpts : ApiResult) : PyResult CkptOutcome :=
  match postApi (ckptPayload name) with
  | .ok _ =>
      match getOpts with
      | .ok opts =>
          match opts with
          | .obj fs =>
              match lookup fs "sd_model_checkpoint" with
              | some newCkpt =>
                  if truthy newCkpt then
                    match pyContains newCkpt name with
                    | .ok true => .ok .verified
                    | .ok false => .ok .warned
                    | .exn e => .exn e
                  else .ok .warned
              | none => .ok .warned
          | _ => .exn "AttributeError"
      | .httpError _ _ => .exn "HTTPError:get"
      | .requestError _ => .exn "RequestException:get"
      | .otherError _ => .exn "Exception:get"
  | .httpError _ _ => .exn "HTTPError:post"
  | .requestError _ => .exn "RequestException:post"
  | .otherError _ => .exn "Exception:post"

def strStartsWith (pre s : String) : Bool :=
  pre.toList.isPrefixOf s.toList

/-- Whether an exception name belongs to `requests.exceptions.HTTPError`
(the exceptions our model can raise are tagged with their class). -/
def isHTTPError (e : String) : Bool := strStartsWith "HTTPError:" e

/-- Whether an exception name belongs to
`requests.exceptions.RequestException` (HTTPError is a subclass, but the
`except` for it comes first). -/
def isRequestException (e : String) : Bool :=
  isHTTPError e || strStartsWith "RequestException:" e

/-- `set_sd_model_checkpoint`: the `try` body wrapped in the `except`
cascade (`HTTPError`, then `RequestException`, then `Exception`).  The
result type still allows `.exn` so that "never raises" is a statement, not
a typing artifact. -/
def set_sd_model_checkpoint (name : String) (postApi : Payload → ApiResult)
    (getOpts : ApiResult) : PyResult CkptOutcome :=
  match ckptTryBody name postApi getOpts with
  | .ok o => .ok o
  | .exn e =>
      if isHTTPError e then .ok .httpErrorLogged
      else if isRequestException e then .ok .requestErrorLogged
      else .ok .unexpectedErrorLogged

/-! ### Spec-side description of the LoRA-injection step (for refinement
against `handlerTransform`) -/

/-- Whether a JSON value is a dict (a LoRA descriptor must be one). -/
def isObj : JVal → Bool
  | .obj _ => true
  | _ => false

/-- Whether the payload's `"prompt"`, if present, is a string. -/
def promptOk (p : Payload) : Bool :=
  match lookup p "prompt" with
  | none => true
  | some (.str _) => true
  | some _ => false

/-- The prompt string of a payload, the empty string when absent. -/
def promptString (p : Payload) : String :=
  match lookup p "prompt" with
  | some (.str s) => s
  | _ => ""

/-- Spec-side: the tag a descriptor contributes (empty for an invalid one). -/
def specLoraTag (e : JVal) : String :=
  match e with
  | .obj fs => loraTag fs
  | _ => ""

/-- Spec-side: the inline tags of all descriptors, concatenated in order. -/
def specLoraSegment (entries : List JVal) : String :=
  entries.foldl (fun acc e => acc ++ specLoraTag e) ""

/-- Spec-side description of the first transformation step: remove the
`"loras"` list, then append the inline tags of the valid descriptors to
the prompt string (the empty string standing in for an absent prompt). -/
def specLoraInjection (p : Payload) (entries : List JVal) : Payload :=
  let q := eraseKey p "loras"
  let seg := specLoraSegment entries
  if seg = "" then q
  else setKey q "prompt" (.str (promptString p ++ seg))

/-! ### Lemmas about the dict operations -/

theorem lookup_append_of_some {d : Payload} {k : String} {v : JVal}
    (e : Payload) (h : lookup d k = some v) : lookup (d ++ e) k = some v := by
  induction d with
  | nil => simp [lookup] at h
  | cons hd tl ih =>
      obtain ⟨k', v'⟩ := hd
      simp only [lookup, List.cons_append] at h ⊢
      split at h
      · simp [*]
      · simp only [*, if_false]
        exact ih h

theorem lookup_append_of_none {d : Payload} {k : String}
    (e : Payload) (h : lookup d k = none) : lookup (d ++ e) k = lookup e k := by
  induction d with
  | nil => simp [lookup]
  | cons hd tl ih =>
      obtain ⟨k', v'⟩ := hd
      simp only [lookup, List.cons_append] at h ⊢
      split at h
      · exact absurd h (by simp)
      · simp only [*, if_false]
        exact ih h

theorem lookup_eraseKey_self (d : Payload) (k : String) :
    lookup (eraseKey d k) k = none := by
  induction d with
  | nil => rfl
  | cons hd tl ih =>
      obtain ⟨k', v'⟩ := hd
      by_cases hk : k' = k
      · simpa [eraseKey, hk] using ih
      · simpa [eraseKey, lookup, hk] using ih

theorem lookup_eraseKey_ne {k k' : String} (d : Payload) (h : k' ≠ k) :
    lookup (eraseKey d k) k' = lookup d k' := by
  induction d with
  | nil => rfl
  | cons hd tl ih =>
      obtain ⟨k₀, v₀⟩ := hd
      by_cases hk : k₀ = k
      · subst hk
        have hne : ¬ k₀ = k' := fun hc => h (hc ▸ rfl)
        have he : eraseKey ((k₀, v₀) :: tl) k₀ = eraseKey tl k₀ := by
          simp [eraseKey]
        rw [he, ih]
        simp [lookup, hne]
      · have he : eraseKey ((k₀, v₀) :: tl) k = (k₀, v₀) :: eraseKey tl k := by
          simp [eraseKey, hk]
        rw [he]
        by_cases hk' : k₀ = k'
        · simp [lookup, hk']
        · simp [lookup, hk', ih]

theorem lookup_setKey_ne {k k' : String} (d : Payload) (v : JVal) (h : k' ≠ k) :
    lookup (setKey d k v) k' = lookup d k' := by
  induction d with
  | nil =>
      have hne : ¬ k = k' := fun hc => h hc.symm
      simp [setKey, lookup, hne]
  | cons hd tl ih =>
      obtain ⟨k₀, v₀⟩ := hd
      by_cases hk : k₀ = k
      · subst hk
        have hne : ¬ k₀ = k' := fun hc => h (hc ▸ rfl)
        simp [setKey, lookup, hne]
      · by_cases hk' : k₀ = k'
        · simp [setKey, lookup, hk, hk', h]
        · simp [setKey, lookup, hk, hk', ih]

theorem lookup_setKey_self (d : Payload) (k : String) (v : JVal) :
    lookup (setKey d k v) k = some v := by
  induction d with
  | nil => simp [setKey, lookup]
  | cons hd tl ih =>
      obtain ⟨k₀, v₀⟩ := hd
      by_cases hk : k₀ = k
      · simp [setKey, lookup, hk]
      · simp [setKey, lookup, hk, ih]

theorem lookup_setdefault_ne {k k' : String} (d : Payload) (v : JVal)
    (h : k' ≠ k) : lookup (setdefault d k v) k' = lookup d k' := by
  unfold setdefault
  split
  · rfl
  · rename_i hnone
    cases hl : lookup d k' with
    | none =>
        rw [lookup_append_of_none _ hl]
        have hne : ¬ k = k' := fun hc => h hc.symm
        simp [lookup, hne]
    | some w => rw [lookup_append_of_some _ hl]

theorem lookup_setdefault_of_some {d : Payload} {k' : String} {w : JVal}
    (k : String) (v : JVal) (h : lookup d k' = some w) :
    lookup (setdefault d k v) k' = some w := by
  unfold setdefault
  split
  · exact h
  · exact lookup_append_of_some _ h

theorem lookup_setdefault_isSome (d : Payload) (k : String) (v : JVal) :
    (lookup (setdefault d k v) k).isSome = true := by
  unfold setdefault
  split
  · assumption
  · rename_i hnone
    have h0 : lookup d k = none := by
      cases hl : lookup d k with
      | none => rfl
      | some w => exact absurd (by simp [hl]) hnone
    rw [lookup_append_of_none _ h0]
    simp [lookup]

theorem foldl_setdefault_of_some {k : String} {w : JVal}
    (kvs : List (String × JVal)) (d : Payload) (h : lookup d k = some w) :
    lookup (kvs.foldl (fun acc kv => setdefault acc kv.1 kv.2) d) k = some w := by
  induction kvs generalizing d with
  | nil => exact h
  | cons kv rest ih => exact ih _ (lookup_setdefault_of_some kv.1 kv.2 h)

theorem foldl_setdefault_not_mem {k : String}
    (kvs : List (String × JVal)) (d : Payload)
    (h : ∀ kv ∈ kvs, kv.1 ≠ k) :
    lookup (kvs.foldl (fun acc kv => setdefault acc kv.1 kv.2) d) k = lookup d k := by
  induction kvs generalizing d with
  | nil => rfl
  | cons kv rest ih =>
      have h1 : k ≠ kv.1 := fun hc => (h kv (List.mem_cons_self _ _)) hc.symm
      rw [List.foldl_cons,
        ih (setdefault d kv.1 kv.2) (fun kv' h' => h kv' (List.mem_cons_of_mem _ h'))]
      exact lookup_setdefault_ne d kv.2 h1

theorem foldl_setdefault_isSome_mono {k : String}
    (kvs : List (String × JVal)) (d : Payload)
    (h : (lookup d k).isSome = true) :
    (lookup (kvs.foldl (fun acc kv => setdefault acc kv.1 kv.2) d) k).isSome = true := by
  obtain ⟨w, hw⟩ := Option.isSome_iff_exists.mp h
  rw [foldl_setdefault_of_some kvs d hw]
  rfl

theorem foldl_setdefault_isSome_of_mem {k : String}
    (kvs : List (String × JVal)) (d : Payload)
    (h : k ∈ kvs.map Prod.fst) :
    (lookup (kvs.foldl (fun acc kv => setdefault acc kv.1 kv.2) d) k).isSome = true := by
  induction kvs generalizing d with
  | nil => simp at h
  | cons kv rest ih =>
      rw [List.foldl_cons]
      simp only [List.map_cons, List.mem_cons] at h
      rcases h with h | h
      · subst h
        exact foldl_setdefault_isSome_mono rest _ (lookup_setdefault_isSome d _ _)
      · exact ih _ h

theorem lookup_applyDefaults_of_some {d : Payload} {k : String} {w : JVal}
    (h : lookup d k = some w) : lookup (applyDefaults d) k = some w :=
  foldl_setdefault_of_some defaults d h

theorem lookup_applyDefaults_loras (d : Payload) :
    lookup (applyDefaults d) "loras" = lookup d "loras" :=
  foldl_setdefault_not_mem defaults d (by decide)

theorem lookup_applyDefaults_isSome_default (d : Payload) {k : String}
    (h : k ∈ defaults.map Prod.fst) :
    (lookup (applyDefaults d) k).isSome = true :=
  foldl_setdefault_isSome_of_mem defaults d h

/-- Any successful `handlerTransform` result is `applyDefaults` of the
payload with `"loras"` removed, possibly with the `"prompt"` rebound to a
string by the LoRA injection. -/
theorem handlerTransform_ok_shape {p p' : Payload}
    (h : handlerTransform p = .ok p') :
    ∃ q, p' = applyDefaults q ∧
      (q = eraseKey p "loras" ∨
       ∃ s, q = setKey (eraseKey p "loras") "prompt" (.str s)) := by
  simp only [handlerTransform] at h
  split at h
  · split at h
    · split at h
      · split at h
        · split at h
          · exact ⟨_, (PyResult.ok.inj h).symm, Or.inr ⟨_, rfl⟩⟩
          · cases h
        · exact ⟨_, (PyResult.ok.inj h).symm, Or.inl rfl⟩
      · cases h
    · cases h
  · exact ⟨_, (PyResult.ok.inj h).symm, Or.inl rfl⟩

/-- When every entry is a dict, the LoRA loop succeeds and accumulates the
per-descriptor tags in order. -/
theorem loraLoop_all_obj (entries : List JVal) (acc : String)
    (h : entries.all isObj = true) :
    loraLoop entries acc =
      .ok (entries.foldl (fun a e => a ++ specLoraTag e) acc) := by
  induction entries generalizing acc with
  | nil => rfl
  | cons e rest ih =>
      cases e with
      | obj fs =>
          simp only [List.all_cons, Bool.and_eq_true] at h
          simp only [loraLoop, List.foldl_cons, specLoraTag]
          exact ih _ h.2
      | null => simp [isObj] at h
      | bool b => simp [isObj] at h
      | num q => simp [isObj] at h
      | str s => simp [isObj] at h
      | arr xs => simp [isObj] at h

/-- C1: for every job input whose LoRA field is a list of descriptor dicts
(or absent) and whose prompt, if present, is a string, the handler
transforms the payload in two ordered steps: first it removes the
`"loras"` list and appends an inline ` <lora:name:weight>` tag to the
prompt string (the empty string when no prompt is present) for each
descriptor with a name and a numeric weight; only after that does it fill
default values for missing generation-parameter fields. -/
theorem handlerTransform_two_ordered_steps
    (p : Payload) (entries : List JVal)
    (hloras : lookup p "loras" = some (.arr entries) ∨
      (lookup p "loras" = none ∧ entries = []))
    (hobj : entries.all isObj = true)
    (hprompt : promptOk p = true) :
    handlerTransform p = .ok (applyDefaults (specLoraInjection p entries)) := by
  have hl : (lookup p "loras").getD (.arr []) = .arr entries := by
    rcases hloras with h | ⟨h, he⟩
    · rw [h]; rfl
    · rw [h, he]; rfl
  cases entries with
  | nil =>
      simp [handlerTransform, hl, truthy, specLoraInjection, specLoraSegment]
  | cons e rest =>
      have hloop : loraLoop (e :: rest) "" = .ok (specLoraSegment (e :: rest)) :=
        loraLoop_all_obj (e :: rest) "" hobj
      have hpe : lookup (eraseKey p "loras") "prompt" = lookup p "prompt" :=
        lookup_eraseKey_ne p (by decide)
      by_cases h0 : specLoraSegment (e :: rest) = ""
      · simp [handlerTransform, hl, hloop, truthy, h0, specLoraInjection]
      · cases hp : lookup p "prompt" with
        | none =>
            simp [handlerTransform, hl, hloop, truthy, h0, specLoraInjection,
              hpe, hp, promptString]
        | some v =>
            cases v with
            | str s =>
                simp [handlerTransform, hl, hloop, truthy, h0, specLoraInjection,
                  hpe, hp, promptString]
            | null => simp [promptOk, hp] at hprompt
            | bool b => simp [promptOk, hp] at hprompt
            | num q => simp [promptOk, hp] at hprompt
            | arr xs => simp [promptOk, hp] at hprompt
            | obj fs => simp [promptOk, hp] at hprompt

/-- Witness for the C1 theorem at a concrete job input. -/
theorem handlerTransform_two_ordered_steps_witness :
    (lookup [("prompt", JVal.str "a cat"),
        ("loras", JVal.arr [JVal.obj [("name", JVal.str "style"),
          ("weight", JVal.num 1)]])] "loras" =
      some (.arr [JVal.obj [("name", JVal.str "style"), ("weight", JVal.num 1)]]) ∨
     (lookup [("prompt", JVal.str "a cat"),
        ("loras", JVal.arr [JVal.obj [("name", JVal.str "style"),
          ("weight", JVal.num 1)]])] "loras" = none ∧
      [JVal.obj [("name", JVal.str "style"), ("weight", JVal.num 1)]] = ([] : List JVal))) ∧
    ([JVal.obj [("name", JVal.str "style"), ("weight", JVal.num 1)]].all isObj = true) ∧
    (promptOk [("prompt", JVal.str "a cat"),
        ("loras", JVal.arr [JVal.obj [("name", JVal.str "style"),
          ("weight", JVal.num 1)]])] = true) ∧
    handlerTransform [("prompt", JVal.str "a cat"),
        ("loras", JVal.arr [JVal.obj [("name", JVal.str "style"),
          ("weight", JVal.num 1)]])] =
      .ok (applyDefaults (specLoraInjection
        [("prompt", JVal.str "a cat"),
          ("loras", JVal.arr [JVal.obj [("name", JVal.str "style"),
            ("weight", JVal.num 1)]])]
        [JVal.obj [("name", JVal.str "style"), ("weight", JVal.num 1)]])) :=
  ⟨Or.inl rfl, rfl, rfl,
    handlerTransform_two_ordered_steps _ _ (Or.inl rfl) rfl rfl⟩

/-- C2 counterexample: a payload in which `"init_images"` is present but
bound to an empty list is routed to the `txt2img` endpoint, refuting
"present implies img2img" (the code also requires truthiness). -/
theorem chooseEndpoint_presence_counterexample :
    lookup [("init_images", JVal.arr [])] "init_images" = some (.arr []) ∧
    chooseEndpoint [("init_images", JVal.arr [])] = .txt2img :=
  ⟨rfl, rfl⟩

/-- C2 (amended): every transformed payload is sent to exactly one of the
two endpoints, and the request goes to img2img exactly when the
`"init_images"` key is present with a truthy (non-empty) value; otherwise
it goes to txt2img. -/
theorem chooseEndpoint_truthy_routing :
    ∀ (api : Endpoint → Payload → ApiResult) (p : Payload),
      run_sd_inference api p = api (chooseEndpoint p) p ∧
      (chooseEndpoint p = .txt2img ∨ chooseEndpoint p = .img2img) ∧
      (chooseEndpoint p = .img2img ↔
        ∃ v, lookup p "init_images" = some v ∧ truthy v = true) := by
  intro api p
  refine ⟨rfl, ?_, ?_⟩
  · cases hl : lookup p "init_images" with
    | none => simp [chooseEndpoint, hl]
    | some v => by_cases ht : truthy v <;> simp [chooseEndpoint, hl, ht]
  · cases hl : lookup p "init_images" with
    | none => simp [chooseEndpoint, hl]
    | some v => by_cases ht : truthy v <;> simp [chooseEndpoint, hl, ht]

/-- C8: every key of the job input other than `"loras"` and `"prompt"`
keeps its caller-provided value in the forwarded payload; and the default
filling never overwrites any field the caller provided. -/
theorem handlerTransform_frame :
    (∀ (p p' : Payload) (k : String) (v : JVal),
      handlerTransform p = .ok p' → k ≠ "loras" → k ≠ "prompt" →
      lookup p k = some v → lookup p' k = some v) ∧
    (∀ (d : Payload) (k : String) (w : JVal),
      lookup d k = some w → lookup (applyDefaults d) k = some w) := by
  constructor
  · intro p p' k v hok hkl hkp hv
    obtain ⟨q, rfl, hq⟩ := handlerTransform_ok_shape hok
    have h1 : lookup (eraseKey p "loras") k = some v := by
      rw [lookup_eraseKey_ne p hkl]; exact hv
    rcases hq with rfl | ⟨s, rfl⟩
    · exact lookup_applyDefaults_of_some h1
    · refine lookup_applyDefaults_of_some ?_
      rw [lookup_setKey_ne _ _ hkp]
      exact h1
  · intro d k w hw
    exact lookup_applyDefaults_of_some hw

/-- Witness for the C8 theorem at a concrete job input. -/
theorem handlerTransform_frame_witness :
    handlerTransform [("steps", JVal.num 5)] =
      .ok [("steps", JVal.num 5), ("sampler_name", JVal.str "Euler a"),
        ("cfg_scale", JVal.num 7), ("width", JVal.num 512),
        ("height", JVal.num 512), ("seed", JVal.num (-1)),
        ("negative_prompt", JVal.str "")] ∧
    ("steps" : String) ≠ "loras" ∧ ("steps" : String) ≠ "prompt" ∧
    lookup [("steps", JVal.num 5)] "steps" = some (.num 5) ∧
    lookup [("steps", JVal.num 5), ("sampler_name", JVal.str "Euler a"),
        ("cfg_scale", JVal.num 7), ("width", JVal.num 512),
        ("height", JVal.num 512), ("seed", JVal.num (-1)),
        ("negative_prompt", JVal.str "")] "steps" = some (.num 5) :=
  ⟨rfl, by decide, by decide, rfl,
    handlerTransform_frame.1 [("steps", JVal.num 5)] _ "steps" (.num 5)
      rfl (by decide) (by decide) rfl⟩

/-- C9: every forwarded payload lacks the `"loras"` key and contains the
seven default generation-parameter keys. -/
theorem handlerTransform_forwarded_invariant :
    ∀ (p p' : Payload), handlerTransform p = .ok p' →
      lookup p' "loras" = none ∧
      ∀ k ∈ ["steps", "sampler_name", "cfg_scale", "width", "height",
          "seed", "negative_prompt"],
        (lookup p' k).isSome = true := by
  intro p p' hok
  obtain ⟨q, rfl, hq⟩ := handlerTransform_ok_shape hok
  constructor
  · rw [lookup_applyDefaults_loras]
    rcases hq with rfl | ⟨s, rfl⟩
    · exact lookup_eraseKey_self p "loras"
    · rw [lookup_setKey_ne _ _ (by decide)]
      exact lookup_eraseKey_self p "loras"
  · intro k hk
    refine lookup_applyDefaults_isSome_default q ?_
    have hmem : ∀ k' ∈ ["steps", "sampler_name", "cfg_scale", "width",
        "height", "seed", "negative_prompt"], k' ∈ defaults.map Prod.fst := by
      decide
    exact hmem k hk

/-- Witness for the C9 theorem at a concrete job input. -/
theorem handlerTransform_forwarded_invariant_witness :
    handlerTransform [] =
      .ok [("steps", JVal.num 20), ("sampler_name", JVal.str "Euler a"),
        ("cfg_scale", JVal.num 7), ("width", JVal.num 512),
        ("height", JVal.num 512), ("seed", JVal.num (-1)),
        ("negative_prompt", JVal.str "")] ∧
    (lookup [("steps", JVal.num 20), ("sampler_name", JVal.str "Euler a"),
        ("cfg_scale", JVal.num 7), ("width", JVal.num 512),
        ("height", JVal.num 512), ("seed", JVal.num (-1)),
        ("negative_prompt", JVal.str "")] "loras" = none ∧
      ∀ k ∈ ["steps", "sampler_name", "cfg_scale", "width", "height",
          "seed", "negative_prompt"],
        (lookup [("steps", JVal.num 20), ("sampler_name", JVal.str "Euler a"),
          ("cfg_scale", JVal.num 7), ("width", JVal.num 512),
          ("height", JVal.num 512), ("seed", JVal.num (-1)),
          ("negative_prompt", JVal.str "")] k).isSome = true) :=
  ⟨rfl, handlerTransform_forwarded_invariant [] _ rfl⟩

/-- C3: once the payload has been transformed, a successful inference call
makes the handler return the raw JSON response, and an HTTP or
network/request failure is not propagated: the handler returns a
structured job result with an error message and a status code. -/
theorem handler_maps_api_failures :
    ∀ (api : Endpoint → Payload → ApiResult) (fs p p' : Payload),
      lookup fs "input" = some (.obj p) →
      handlerTransform p = .ok p' →
      ((∀ b, api (chooseEndpoint p') p' = .ok b →
          handler api (.obj fs) = .success b) ∧
       (∀ e r, api (chooseEndpoint p') p' = .httpError e r →
          ∃ msg code, handler api (.obj fs) = .error msg code) ∧
       (∀ e, api (chooseEndpoint p') p' = .requestError e →
          ∃ msg, handler api (.obj fs) = .error msg 503) ∧
       (∀ e, api (chooseEndpoint p') p' = .otherError e →
          ∃ msg, handler api (.obj fs) = .error msg 500)) := by
  intro api fs p p' hin hok
  have hrun : handler api (.obj fs) =
      mapApiResult (api (chooseEndpoint p') p') := by
    simp [handler, handlerRun, hin, hok, run_sd_inference]
  refine ⟨?_, ?_, ?_, ?_⟩
  · intro b hb
    rw [hrun, hb]
    rfl
  · intro e r hb
    rw [hrun, hb]
    cases r with
    | none => exact ⟨_, _, rfl⟩
    | some pr =>
        obtain ⟨c, t⟩ := pr
        exact ⟨_, _, rfl⟩
  · intro e hb
    rw [hrun, hb]
    exact ⟨_, rfl⟩
  · intro e hb
    rw [hrun, hb]
    exact ⟨_, rfl⟩

/-- Witness for the C3 theorem: a network failure becomes a 503 result. -/
theorem handler_maps_api_failures_witness :
    lookup [("input", JVal.obj [])] "input" = some (.obj []) ∧
    handlerTransform [] =
      .ok [("steps", JVal.num 20), ("sampler_name", JVal.str "Euler a"),
        ("cfg_scale", JVal.num 7), ("width", JVal.num 512),
        ("height", JVal.num 512), ("seed", JVal.num (-1)),
        ("negative_prompt", JVal.str "")] ∧
    ∃ msg, handler (fun _ _ => ApiResult.requestError "connection refused")
        (.obj [("input", JVal.obj [])]) = .error msg 503 :=
  ⟨rfl, rfl,
    (handler_maps_api_failures (fun _ _ => ApiResult.requestError "connection refused")
      [("input", JVal.obj [])] [] _ rfl rfl).2.2.1 "connection refused" rfl⟩

/-- C10: the status_code of a returned error result is the upstream HTTP
status when the failure is an HTTP error carrying a response, 500 when it
is an HTTP error without a response or any unexpected exception, and 503
when it is any other request/network error. -/
theorem handler_error_status_codes :
    ∀ (api : Endpoint → Payload → ApiResult) (fs p p' : Payload),
      lookup fs "input" = some (.obj p) →
      handlerTransform p = .ok p' →
      ((∀ e c t, api (chooseEndpoint p') p' = .httpError e (some (c, t)) →
          ∃ msg, handler api (.obj fs) = .error msg c) ∧
       (∀ e, api (chooseEndpoint p') p' = .httpError e none →
          ∃ msg, handler api (.obj fs) = .error msg 500) ∧
       (∀ e, api (chooseEndpoint p') p' = .requestError e →
          ∃ msg, handler api (.obj fs) = .error msg 503) ∧
       (∀ e, api (chooseEndpoint p') p' = .otherError e →
          ∃ msg, handler api (.obj fs) = .error msg 500)) := by
  intro api fs p p' hin hok
  have hrun : handler api (.obj fs) =
      mapApiResult (api (chooseEndpoint p') p') := by
    simp [handler, handlerRun, hin, hok, run_sd_inference]
  refine ⟨?_, ?_, ?_, ?_⟩
  · intro e c t hb
    rw [hrun, hb]
    exact ⟨_, rfl⟩
  · intro e hb
    rw [hrun, hb]
    exact ⟨_, rfl⟩
  · intro e hb
    rw [hrun, hb]
    exact ⟨_, rfl⟩
  · intro e hb
    rw [hrun, hb]
    exact ⟨_, rfl⟩

/-- Witness for the C10 theorem: an HTTP 502 with a response body yields a
502 error result. -/
theorem handler_error_status_codes_witness :
    lookup [("input", JVal.obj [])] "input" = some (.obj []) ∧
    handlerTransform [] =
      .ok [("steps", JVal.num 20), ("sampler_name", JVal.str "Euler a"),
        ("cfg_scale", JVal.num 7), ("width", JVal.num 512),
        ("height", JVal.num 512), ("seed", JVal.num (-1)),
        ("negative_prompt", JVal.str "")] ∧
    ∃ msg, handler
        (fun _ _ => ApiResult.httpError "502 Server Error" (some (502, "bad gateway")))
        (.obj [("input", JVal.obj [])]) = .error msg 502 :=
  ⟨rfl, rfl,
    (handler_error_status_codes
      (fun _ _ => ApiResult.httpError "502 Server Error" (some (502, "bad gateway")))
      [("input", JVal.obj [])] [] _ rfl rfl).1 "502 Server Error" 502 "bad gateway" rfl⟩

/-- C6: a single handler invocation issues at most one inference call, and
the result of the run is fully determined by the event and the inference
API's response to the call it makes (no state across invocations). -/
theorem handler_single_call_stateless :
    ∀ (api₁ api₂ : Endpoint → Payload → ApiResult) (event : JVal),
      (∀ c ∈ (handlerRun api₁ event).2, api₁ c.1 c.2 = api₂ c.1 c.2) →
      (handlerRun api₁ event).2.length ≤ 1 ∧
      handlerRun api₁ event = handlerRun api₂ event := by
  intro api₁ api₂ event hagree
  cases event with
  | obj fs =>
      cases hin : lookup fs "input" with
      | none => simp [handlerRun, hin]
      | some v =>
          cases v with
          | obj p =>
              cases hok : handlerTransform p with
              | ok p' =>
                  have hc : (chooseEndpoint p', p') ∈
                      (handlerRun api₁ (JVal.obj fs)).2 := by
                    simp [handlerRun, hin, hok]
                  have h1 := hagree _ hc
                  constructor
                  · simp [handlerRun, hin, hok]
                  · simp only [handlerRun, hin, hok, run_sd_inference] at h1 ⊢
                    rw [h1]
              | exn e => simp [handlerRun, hin, hok]
          | null => simp [handlerRun, hin]
          | bool b => simp [handlerRun, hin]
          | num q => simp [handlerRun, hin]
          | str s => simp [handlerRun, hin]
          | arr xs => simp [handlerRun, hin]
  | null => simp [handlerRun]
  | bool b => simp [handlerRun]
  | num q => simp [handlerRun]
  | str s => simp [handlerRun]
  | arr xs => simp [handlerRun]

/-- Witness for the C6 theorem at a concrete event and api behaviour. -/
theorem handler_single_call_stateless_witness :
    (∀ c ∈ (handlerRun (fun _ _ => ApiResult.ok (JVal.str "img"))
        (JVal.obj [("input", JVal.obj [])])).2,
      (fun (_ : Endpoint) (_ : Payload) => ApiResult.ok (JVal.str "img")) c.1 c.2 =
        (fun (_ : Endpoint) (_ : Payload) => ApiResult.ok (JVal.str "img")) c.1 c.2) ∧
    (handlerRun (fun _ _ => ApiResult.ok (JVal.str "img"))
        (JVal.obj [("input", JVal.obj [])])).2.length ≤ 1 ∧
    handlerRun (fun _ _ => ApiResult.ok (JVal.str "img"))
        (JVal.obj [("input", JVal.obj [])]) =
      handlerRun (fun _ _ => ApiResult.ok (JVal.str "img"))
        (JVal.obj [("input", JVal.obj [])]) :=
  ⟨fun _ _ => rfl,
    handler_single_call_stateless _ _ (JVal.obj [("input", JVal.obj [])])
      (fun _ _ => rfl)⟩

/-- C7: on a failed inference call the handler does application-level
retrying of nothing: it still issues exactly one call and returns an error
result, and the only retries are the HTTP client's built-in policy of 15
total retries restricted to the fixed server-error statuses
500, 502, 503, 504. -/
theorem handler_no_app_retry :
    ∀ (api : Endpoint → Payload → ApiResult) (fs p p' : Payload),
      lookup fs "input" = some (.obj p) →
      handlerTransform p = .ok p' →
      (api (chooseEndpoint p') p').isOk = false →
      (handlerRun api (.obj fs)).2.length = 1 ∧
      (∃ msg code, handler api (.obj fs) = .error msg code) ∧
      retries_config.total = 15 ∧
      retries_config.statusForcelist = [500, 502, 503, 504] ∧
      ∀ c ∈ retries_config.statusForcelist, 500 ≤ c ∧ c ≤ 504 := by
  intro api fs p p' hin hok hfail
  have hrun : handlerRun api (.obj fs) =
      (mapApiResult (api (chooseEndpoint p') p'), [(chooseEndpoint p', p')]) := by
    simp [handlerRun, hin, hok, run_sd_inference]
  refine ⟨by rw [hrun]; rfl, ?_, rfl, rfl, by decide⟩
  have hh : handler api (.obj fs) = mapApiResult (api (chooseEndpoint p') p') := by
    rw [handler, hrun]
  cases ha : api (chooseEndpoint p') p' with
  | ok b =>
      rw [ha] at hfail
      simp [ApiResult.isOk] at hfail
  | httpError e r =>
      cases r with
      | none => exact ⟨_, _, by rw [hh, ha]; rfl⟩
      | some pr =>
          obtain ⟨c, t⟩ := pr
          exact ⟨_, _, by rw [hh, ha]; rfl⟩
  | requestError e => exact ⟨_, _, by rw [hh, ha]; rfl⟩
  | otherError e => exact ⟨_, _, by rw [hh, ha]; rfl⟩

/-- Witness for the C7 theorem at a concrete failing call. -/
theorem handler_no_app_retry_witness :
    lookup [("input", JVal.obj [])] "input" = some (.obj []) ∧
    handlerTransform [] =
      .ok [("steps", JVal.num 20), ("sampler_name", JVal.str "Euler a"),
        ("cfg_scale", JVal.num 7), ("width", JVal.num 512),
        ("height", JVal.num 512), ("seed", JVal.num (-1)),
        ("negative_prompt", JVal.str "")] ∧
    ((handlerRun (fun _ _ => ApiResult.otherError "json decode failure")
        (.obj [("input", JVal.obj [])])).2.length = 1 ∧
      (∃ msg code, handler (fun _ _ => ApiResult.otherError "json decode failure")
        (.obj [("input", JVal.obj [])]) = .error msg code) ∧
      retries_config.total = 15 ∧
      retries_config.statusForcelist = [500, 502, 503, 504] ∧
      ∀ c ∈ retries_config.statusForcelist, 500 ≤ c ∧ c ≤ 504) :=
  ⟨rfl, rfl,
    handler_no_app_retry (fun _ _ => ApiResult.otherError "json decode failure")
      [("input", JVal.obj [])] [] _ rfl rfl rfl⟩

theorem waitLoop_some_success (outcome : Nat → Bool) :
    ∀ (fuel rc i j : Nat), (waitLoop outcome fuel rc i).1 = some j →
      outcome j = true := by
  intro fuel
  induction fuel with
  | zero =>
      intro rc i j h
      simp [waitLoop] at h
  | succ n ih =>
      intro rc i j h
      by_cases ho : outcome i
      · simp [waitLoop, ho] at h
        rw [← h]
        exact ho
      · simp only [waitLoop, ho, Bool.false_eq_true, if_false] at h
        exact ih _ _ _ h

/-- C4: the readiness wait polls the health check and returns only after a
check has succeeded: a successful check ends the loop at once; every
failed check is followed by the fixed half-second sleep and another
attempt, with the retry log line emitted on the first failed attempt and
then once every `log_interval = 15` attempts. -/
theorem wait_for_service_poll_until_success :
    (∀ (outcome : Nat → Bool) (fuel i : Nat),
        (wait_for_service outcome fuel).1 = some i → outcome i = true) ∧
    (∀ (outcome : Nat → Bool) (fuel rc i : Nat), outcome i = true →
        waitLoop outcome (fuel + 1) rc i = (some i, [.check i])) ∧
    (∀ (outcome : Nat → Bool) (fuel rc i : Nat), outcome i = false →
        waitLoop outcome (fuel + 1) rc i =
          ((waitLoop outcome fuel (rc + 1) (i + 1)).1,
            .check i ::
              (if rc + 1 = 1 ∨ (rc + 1) % log_interval = 0
                then [.log (rc + 1)] else []) ++
              .sleep check_interval_seconds ::
                (waitLoop outcome fuel (rc + 1) (i + 1)).2)) ∧
    log_interval = 15 ∧ check_interval_seconds = 1 / 2 := by
  refine ⟨?_, ?_, ?_, rfl, rfl⟩
  · intro outcome fuel i h
    exact waitLoop_some_success outcome fuel 0 0 i h
  · intro outcome fuel rc i h
    simp [waitLoop, h]
  · intro outcome fuel rc i h
    simp [waitLoop, h]

/-- Witness for the C4 theorem at concrete outcome schedules. -/
theorem wait_for_service_poll_until_success_witness :
    (wait_for_service (fun i => decide (i = 1)) 5).1 = some 1 ∧
    decide ((1 : Nat) = 1) = true ∧
    waitLoop (fun _ => true) (0 + 1) 0 0 = (some 0, [.check 0]) ∧
    waitLoop (fun _ => false) (0 + 1) 0 0 =
      ((waitLoop (fun _ => false) 0 (0 + 1) (0 + 1)).1,
        .check 0 ::
          (if 0 + 1 = 1 ∨ (0 + 1) % log_interval = 0
            then [.log (0 + 1)] else []) ++
          .sleep check_interval_seconds ::
            (waitLoop (fun _ => false) 0 (0 + 1) (0 + 1)).2) :=
  ⟨rfl,
    wait_for_service_poll_until_success.1 (fun i => decide (i = 1)) 5 1 rfl,
    wait_for_service_poll_until_success.2.1 (fun _ => true) 0 0 0 rfl,
    wait_for_service_poll_until_success.2.2.1 (fun _ => false) 0 0 0 rfl⟩

/-- C5: switching the model checkpoint POSTs the requested name to the
configuration endpoint and verifies by reading the configuration back:
the operation reports success exactly when the POST succeeded and the
read-back checkpoint value is truthy and contains the requested name
under Python containment (substring of a string, element of a list, key
of a dict); and under every outcome (HTTP, request, or unexpected error
included) the operation completes without raising. -/
theorem set_sd_model_checkpoint_verified_iff :
    ∀ (name : String) (postApi : Payload → ApiResult) (getOpts : ApiResult),
      (set_sd_model_checkpoint name postApi getOpts).isOk = true ∧
      (set_sd_model_checkpoint name postApi getOpts = .ok .verified ↔
        ∃ (b : JVal) (fs : List (String × JVal)) (nc : JVal),
          postApi (ckptPayload name) = .ok b ∧
          getOpts = .ok (.obj fs) ∧
          lookup fs "sd_model_checkpoint" = some nc ∧
          truthy nc = true ∧
          pyContains nc name = .ok true) := by
  intro name postApi getOpts
  cases hpost : postApi (ckptPayload name) with
  | httpError e r =>
      constructor
      · simp [set_sd_model_checkpoint, ckptTryBody, PyResult.isOk, hpost] <;>
          decide
      · simp [set_sd_model_checkpoint, ckptTryBody, hpost] <;> decide
  | requestError e =>
      constructor
      · simp [set_sd_model_checkpoint, ckptTryBody, PyResult.isOk, hpost] <;>
          decide
      · simp [set_sd_model_checkpoint, ckptTryBody, hpost] <;> decide
  | otherError e =>
      constructor
      · simp [set_sd_model_checkpoint, ckptTryBody, PyResult.isOk, hpost] <;>
          decide
      · simp [set_sd_model_checkpoint, ckptTryBody, hpost] <;> decide
  | ok b =>
      cases hget : getOpts with
      | httpError e r =>
          constructor
          · simp [set_sd_model_checkpoint, ckptTryBody, PyResult.isOk,
              hpost] <;> decide
          · simp [set_sd_model_checkpoint, ckptTryBody, hpost] <;> decide
      | requestError e =>
          constructor
          · simp [set_sd_model_checkpoint, ckptTryBody, PyResult.isOk,
              hpost] <;> decide
          · simp [set_sd_model_checkpoint, ckptTryBody, hpost] <;> decide
      | otherError e =>
          constructor
          · simp [set_sd_model_checkpoint, ckptTryBody, PyResult.isOk,
              hpost] <;> decide
          · simp [set_sd_model_checkpoint, ckptTryBody, hpost] <;> decide
      | ok opts =>
          cases opts with
          | null =>
              constructor
              · simp [set_sd_model_checkpoint, ckptTryBody, PyResult.isOk,
                  hpost] <;> decide
              · simp [set_sd_model_checkpoint, ckptTryBody, hpost] <;> decide
          | bool v =>
              constructor
              · simp [set_sd_model_checkpoint, ckptTryBody, PyResult.isOk,
                  hpost] <;> decide
              · simp [set_sd_model_checkpoint, ckptTryBody, hpost] <;> decide
          | num q =>
              constructor
              · simp [set_sd_model_checkpoint, ckptTryBody, PyResult.isOk,
                  hpost] <;> decide
              · simp [set_sd_model_checkpoint, ckptTryBody, hpost] <;> decide
          | str s =>
              constructor
              · simp [set_sd_model_checkpoint, ckptTryBody, PyResult.isOk,
                  hpost] <;> decide
              · simp [set_sd_model_checkpoint, ckptTryBody, hpost] <;> decide
          | arr xs =>
              constructor
              · simp [set_sd_model_checkpoint, ckptTryBody, PyResult.isOk,
                  hpost] <;> decide
              · simp [set_sd_model_checkpoint, ckptTryBody, hpost] <;> decide
          | obj fs =>
              cases hnc : lookup fs "sd_model_checkpoint" with
              | none =>
                  constructor
                  · simp [set_sd_model_checkpoint, ckptTryBody,
                      PyResult.isOk, hpost, hnc]
                  · simp [set_sd_model_checkpoint, ckptTryBody, hpost, hnc]
              | some nc =>
                  by_cases ht : truthy nc = true
                  · cases hpc : pyContains nc name with
                    | ok bv =>
                        cases bv with
                        | true =>
                            constructor
                            · simp [set_sd_model_checkpoint, ckptTryBody,
                                PyResult.isOk, hpost, hnc, ht, hpc]
                            · constructor
                              · intro _
                                exact ⟨b, fs, nc, rfl, rfl, hnc, ht, hpc⟩
                              · intro _
                                simp [set_sd_model_checkpoint, ckptTryBody,
                                  hpost, hnc, ht, hpc]
                        | false =>
                            constructor
                            · simp [set_sd_model_checkpoint, ckptTryBody,
                                PyResult.isOk, hpost, hnc, ht, hpc]
                            · simp [set_sd_model_checkpoint, ckptTryBody,
                                hpost, hnc, ht, hpc]
                    | exn e2 =>
                        have he : e2 = "TypeError" := by
                          cases nc with
                          | str s => simp [pyContains] at hpc
                          | arr xs => simp [pyContains] at hpc
                          | obj gs => simp [pyContains] at hpc
                          | num q =>
                              simp [pyContains] at hpc
                              exact hpc.symm
                          | bool v =>
                              simp [pyContains] at hpc
                              exact hpc.symm
                          | null =>
                              simp [pyContains] at hpc
                              exact hpc.symm
                        subst he
                        constructor
                        · simp [set_sd_model_checkpoint, ckptTryBody,
                            PyResult.isOk, hpost, hnc, ht, hpc] <;> decide
                        · simp [set_sd_model_checkpoint, ckptTryBody,
                            hpost, hnc, ht, hpc] <;> decide
                  · constructor
                    · simp [set_sd_model_checkpoint, ckptTryBody,
                        PyResult.isOk, hpost, hnc, ht]
                    · simp [set_sd_model_checkpoint, ckptTryBody, hpost,
                        hnc, ht]

end WorkerA1111
